import Mathlib

/-!
Verification of `src/ImageAlteration.py` (ImageGeotagging).

The Python source is shallowly embedded below.  Numeric EXIF values
(degree/minute/second components) are modelled as exact rationals; Python's
`round(x, n)` and `"{:.Nf}".format(x)` are modelled as exact
round-half-to-even at the requested number of decimal places.  File-system
paths are modelled as lists of path components, filenames as strings, and
the external decoder's tag mapping as a record with optional fields (a field
is `none` exactly when the corresponding tag id is absent from the mapping).
-/

namespace ImageAlteration

/-- Round a rational to the nearest integer, ties to even
(the rounding used by Python's `round` and `format`). -/
def roundHalfEven (q : ℚ) : ℤ :=
  let f : ℤ := ⌊q⌋
  let r : ℚ := q - f
  if r < 1/2 then f
  else if 1/2 < r then f + 1
  else if f % 2 = 0 then f else f + 1

/-- Python `round(q, 5)`. -/
def round5 (q : ℚ) : ℚ := (roundHalfEven (q * 100000) : ℚ) / 100000

/-- Python `round(q, 4)` (value produced by `"{:.4f}"` formatting). -/
def round4 (q : ℚ) : ℚ := (roundHalfEven (q * 10000) : ℚ) / 10000

/-- A degrees/minutes/seconds triple, the value stored under GPS tags 2 and 4. -/
structure DMS where
  deg : ℚ
  min : ℚ
  sec : ℚ
deriving DecidableEq, Repr

/-- The exact decimal-degree value of a DMS triple
(`degrees + minutes/60 + seconds/3600`); used in theorem statements. -/
def dmsSum (d : DMS) : ℚ := d.deg + d.min / 60 + d.sec / 3600

/-- `get_decimal_from_dms(dms, ref)` from the source: take
`dms[0]`, `dms[1]/60`, `dms[2]/3600`, negate each component when the
reference letter is `S` or `W`, and round the sum to 5 decimal places. -/
def get_decimal_from_dms (dms : DMS) (ref : Char) : ℚ :=
  let degrees := dms.deg
  let minutes := dms.min / 60
  let seconds := dms.sec / 3600
  if ref = 'S' ∨ ref = 'W' then
    round5 (-degrees + -minutes + -seconds)
  else
    round5 (degrees + minutes + seconds)

/-- The nested GPS IFD mapping stored under tag 34853; a field is `none`
exactly when the corresponding integer key (1..4) is absent. -/
structure GpsDict where
  latRef : Option Char := none
  lat : Option DMS := none
  lonRef : Option Char := none
  lon : Option DMS := none
deriving DecidableEq, Repr

/-- The raw tag mapping returned by `img._getexif()`; `gps` is tag 34853,
`dateTime` is tag 306.  A field is `none` exactly when the tag is absent. -/
structure ExifData where
  gps : Option GpsDict := none
  dateTime : Option String := none
deriving DecidableEq, Repr

/-- `get_geotagging(exif)` from the source: raise when `exif` is falsy or
tag 34853 is absent; after merging the named GPS tags, raise when
`GPSLatitude` (key 2) or `GPSLongitude` (key 4) is absent; otherwise return
the GPS mapping. -/
def get_geotagging (exif : Option ExifData) : Except String GpsDict :=
  match exif with
  | none => .error "No EXIF geotagging found"
  | some e =>
    match e.gps with
    | none => .error "No EXIF geotagging found"
    | some geotagging =>
      if geotagging.lat = none ∨ geotagging.lon = none then
        .error "No latitude or longitude information found in EXIF data"
      else
        .ok geotagging

/-- `get_coordinates(geotags)` from the source: read `GPSLatitude` /
`GPSLatitudeRef` / `GPSLongitude` / `GPSLongitudeRef` and convert each pair
with `get_decimal_from_dms`; a missing key is a `KeyError` (`none`). -/
def get_coordinates (geotags : GpsDict) : Option (ℚ × ℚ) :=
  match geotags.lat, geotags.latRef, geotags.lon, geotags.lonRef with
  | some la, some laRef, some lo, some loRef =>
    some (get_decimal_from_dms la laRef, get_decimal_from_dms lo loRef)
  | _, _, _, _ => none

/-- A parsed `YYYY:MM:DD HH:MM:SS` timestamp. -/
structure DateTime6 where
  year : ℕ
  month : ℕ
  day : ℕ
  hour : ℕ
  minute : ℕ
  second : ℕ
deriving DecidableEq, Repr

def isLeapYear (y : ℕ) : Bool :=
  (y % 4 == 0 && y % 100 != 0) || (y % 400 == 0)

def daysInMonth (y m : ℕ) : ℕ :=
  if m = 2 then (if isLeapYear y then 29 else 28)
  else if m = 4 ∨ m = 6 ∨ m = 9 ∨ m = 11 then 30
  else 31

def digitVal (c : Char) : ℕ := c.toNat - 48

/-- `datetime.strptime(s, "%Y:%m:%d %H:%M:%S")`: the string must be exactly
four digits, `:`, two digits, `:`, two digits, space, two digits, `:`, two
digits, `:`, two digits, and the fields must form a valid `datetime`
(year 1..9999, real calendar date, 24-hour clock); otherwise `ValueError`. -/
def parseExifDate (s : String) : Option DateTime6 :=
  match s.data with
  | [y1, y2, y3, y4, c1, m1, m2, c2, d1, d2, c3, h1, h2, c4, n1, n2, c5, e1, e2] =>
    if (c1 == ':' && c2 == ':' && c3 == ' ' && c4 == ':' && c5 == ':') &&
        [y1, y2, y3, y4, m1, m2, d1, d2, h1, h2, n1, n2, e1, e2].all Char.isDigit then
      let year := digitVal y1 * 1000 + digitVal y2 * 100 + digitVal y3 * 10 + digitVal y4
      let month := digitVal m1 * 10 + digitVal m2
      let day := digitVal d1 * 10 + digitVal d2
      let hour := digitVal h1 * 10 + digitVal h2
      let minute := digitVal n1 * 10 + digitVal n2
      let second := digitVal e1 * 10 + digitVal e2
      if 1 ≤ year ∧ 1 ≤ month ∧ month ≤ 12 ∧ 1 ≤ day ∧ day ≤ daysInMonth year month ∧
          hour ≤ 23 ∧ minute ≤ 59 ∧ second ≤ 59 then
        some ⟨year, month, day, hour, minute, second⟩
      else none
    else none
  | _ => none

/-- Zero-pad a numeric field to two digits (`%m`, `%d`, `%I`, `%M`). -/
def pad2 (n : ℕ) : String := if n < 10 then "0" ++ Nat.repr n else Nat.repr n

/-- `datetime.strftime("%m/%d/%Y %I:%M %p")`. -/
def formatDate (t : DateTime6) : String :=
  let hour12 := if t.hour % 12 = 0 then 12 else t.hour % 12
  pad2 t.month ++ "/" ++ pad2 t.day ++ "/" ++ Nat.repr t.year ++ " " ++
    pad2 hour12 ++ ":" ++ pad2 t.minute ++ " " ++ (if t.hour < 12 then "AM" else "PM")

/-- `get_date_taken(exif)` from the source: raise when tag 306 is absent,
parse it with `strptime` (a parse failure propagates as `ValueError`), and
return the `"%m/%d/%Y %I:%M %p"`-formatted date. -/
def get_date_taken (exif : ExifData) : Except String String :=
  match exif.dateTime with
  | none => .error "No EXIF date taken found"
  | some date_str =>
    match parseExifDate date_str with
    | none => .error "time data does not match format"
    | some date_obj => .ok (formatDate date_obj)

instance {ε α : Type} [DecidableEq ε] [DecidableEq α] : DecidableEq (Except ε α) := fun x y =>
  match x, y with
  | .ok a, .ok b =>
    if h : a = b then .isTrue (by rw [h]) else .isFalse (fun hh => h (Except.ok.inj hh))
  | .error a, .error b =>
    if h : a = b then .isTrue (by rw [h]) else .isFalse (fun hh => h (Except.error.inj hh))
  | .ok _, .error _ => .isFalse (fun hh => Except.noConfusion hh)
  | .error _, .ok _ => .isFalse (fun hh => Except.noConfusion hh)

/-- Zero-pad the fractional digits of a 4-decimal rendering. -/
def padFrac4 (n : ℕ) : String :=
  let s := Nat.repr n
  String.mk (List.replicate (4 - s.length) '0') ++ s

/-- Python `"\x7b:.4f\x7d".format(q)`: sign, integer part, `.`, and the
magnitude's four decimal digits, rounded half-to-even. -/
def format4 (q : ℚ) : String :=
  let n := (roundHalfEven (|q| * 10000)).toNat
  (if q < 0 then "-" else "") ++ Nat.repr (n / 10000) ++ "." ++ padFrac4 (n % 10000)

/-- The location watermark text built in `watermark_with_exif`: the raw GPS
keys 2/4 are summed without sign handling, keys 1/3 choose the hemisphere
letters, and the text is
`"<lat_hemisphere> <lat:.4f>°, <lon_hemisphere> <lon:.4f>°"`.
A missing key 1..4 is a `KeyError` (`none`). -/
def watermark_text_lat_lon (geotagging : GpsDict) : Option String :=
  match geotagging.lat, geotagging.lon, geotagging.latRef, geotagging.lonRef with
  | some la, some lo, some laRef, some loRef =>
    let latitude := la.deg + la.min / 60 + la.sec / 3600
    let longitude := lo.deg + lo.min / 60 + lo.sec / 3600
    let lat_hemisphere := if laRef = 'N' then 'N' else 'S'
    let lon_hemisphere := if loRef = 'E' then 'E' else 'W'
    some (String.singleton lat_hemisphere ++ " " ++ format4 latitude ++ "°, " ++
      String.singleton lon_hemisphere ++ " " ++ format4 longitude ++ "°")
  | _, _, _, _ => none

/-- The in-memory image: pixel dimensions plus the decoded tag mapping
(`none` when `img._getexif()` returns `None`). -/
structure PILImage where
  width : ℕ
  height : ℕ
  exif : Option ExifData
deriving DecidableEq, Repr

/-- `watermark_with_exif(fn)` from the source: open the image, resize it to
1024×768, return `None` when there is no EXIF data or when
`get_geotagging`/`get_date_taken` raise `ValueError`; otherwise draw the two
labels on the resized image, commit it in place of the original, and return
`date_taken`.  The committed image and the returned date are modelled as the
result pair; an uncaught `KeyError` while building the label is `none`. -/
def watermark_with_exif (img : PILImage) : Option (PILImage × String) :=
  let resized : PILImage := { img with width := 1024, height := 768 }
  match img.exif with
  | none => none
  | some exif_data =>
    match get_geotagging (some exif_data), get_date_taken exif_data with
    | .ok geotagging, .ok date_taken =>
      match watermark_text_lat_lon geotagging with
      | some _ => some (resized, date_taken)
      | none => none
    | _, _ => none

/-- `os.path.splitext` on a bare filename: split at the last dot, except
that a name whose characters before that dot are all dots keeps an empty
extension. -/
def splitext (s : String) : String × String :=
  let cs := s.data
  let r := cs.reverse
  let i := r.indexOf '.'
  if i < r.length then
    let cut := cs.length - 1 - i
    if (cs.take cut).any (fun c => c != '.') then
      (String.mk (cs.take cut), String.mk (cs.drop cut))
    else (s, "")
  else (s, "")

/-- `os.path.basename` of a directory path modelled as its component list. -/
def basename (dir : List String) : String := (dir.getLast?).getD ""

/-- `rename_image(fn, date_taken)` from the source: with `fn` split into its
directory components and filename, build
`f"\x7bdate_taken[:2]\x7d\x7bdate_taken[3:5]\x7d_\x7bfolder_name\x7d_\x7bbase\x7d\x7bext\x7d"`
where `folder_name` is the basename of the containing directory, and move the
file to that name inside the same directory; when `date_taken` is `None`
return the path unchanged. -/
def rename_image (dir : List String) (filename : String) (date_taken : Option String) :
    List String × String :=
  match date_taken with
  | none => (dir, filename)
  | some d =>
    let be := splitext filename
    let folder_name := basename dir
    let new_name := d.take 2 ++ (d.drop 3).take 2 ++ "_" ++ folder_name ++ "_" ++ be.1 ++ be.2
    (dir, new_name)

/-- `move_image(fn, date_taken, root_directory)` from the source: when
`date_taken` is not `None`, move the file (keeping its filename) into the
folder `f"\x7bdate_taken[:2]\x7d\x7bdate_taken[3:5]\x7d"` created directly
under `root_directory`; the result is the destination (directory, filename). -/
def move_image (_dir : List String) (filename : String) (date_taken : Option String)
    (root_directory : List String) : Option (List String × String) :=
  match date_taken with
  | none => none
  | some d =>
    let new_folder := d.take 2 ++ (d.drop 3).take 2
    some (root_directory ++ [new_folder], filename)

/-- The per-file tail of `process_images`: `rename_image` then `move_image`,
yielding the file's final (directory components, filename). -/
def processOne (dir : List String) (filename : String) (date_taken : Option String)
    (root_directory : List String) : List String × String :=
  let renamed := rename_image dir filename date_taken
  match move_image renamed.1 renamed.2 date_taken root_directory with
  | some dest => dest
  | none => renamed

/-- Modelled from the spec: the revision of the pipeline that reads the
orientation tag is not under `src/` (only `src/ImageAlteration.py` is, and it
never reads orientation).  Spec §4.1: the lookup "scans the raw tag mapping
for the tag whose human-readable name is \"Orientation\"; absent tag ->
default `1`".  `TAGS` is the PIL tag-name table restricted to the tags this
program mentions; EXIF names the orientation tag 274. -/
def TAGS : List (ℕ × String) := [(274, "Orientation"), (306, "DateTime"), (34853, "GPSInfo")]

/-- Modelled from the spec: scan `TAGS` for the id named "Orientation" and
return the raw mapping's value there, defaulting to `1` when absent. -/
def get_orientation (exif : List (ℕ × ℕ)) : ℕ :=
  match TAGS.findSome? (fun p => if p.2 = "Orientation" then exif.lookup p.1 else none) with
  | some v => v
  | none => 1

/-- `filename.lower()` on the character list of a filename. -/
def lowerChars (s : List Char) : List Char := s.map Char.toLower

/-- `process_images` walks the tree and processes exactly the filenames with
`filename.lower().endswith(".jpg") or filename.lower().endswith(".jpeg")`. -/
def process_images_accepts (filename : List Char) : Bool :=
  (".jpg".data).isSuffixOf (lowerChars filename) ||
    (".jpeg".data).isSuffixOf (lowerChars filename)

/-- `create_kml` builds placemarks exactly for the filenames with
`filename.lower().endswith(".jpg") or filename.lower().endswith(".png")`. -/
def create_kml_accepts (filename : List Char) : Bool :=
  (".jpg".data).isSuffixOf (lowerChars filename) ||
    (".png".data).isSuffixOf (lowerChars filename)

/-- The pair written into a placemark's `Point` geometry by `create_kml`:
`KML.coordinates(f"\x7bcoordinates[1]\x7d,\x7bcoordinates[0]\x7d")` where
`coordinates = get_coordinates(geotags)` is `(lat, lon)`. -/
def kml_point_coordinates (geotags : GpsDict) : Option (ℚ × ℚ) :=
  match get_coordinates geotags with
  | some coordinates => some (coordinates.2, coordinates.1)
  | none => none

/-- The spec's worked example: tag 34853 = `{1:'N', 2:(40,26,46), 3:'W', 4:(79,58,56)}`. -/
def exampleGps : GpsDict := ⟨some 'N', some ⟨40, 26, 46⟩, some 'W', some ⟨79, 58, 56⟩⟩

/-- The spec's worked example tag mapping, with tag 306 = `"2023:07:04 14:05:00"`. -/
def exampleExif : ExifData := ⟨some exampleGps, some "2023:07:04 14:05:00"⟩

/-! ## Helper lemmas -/

theorem roundHalfEven_eq_down (q : ℚ) (f : ℤ) (h1 : (f : ℚ) ≤ q) (h2 : q < (f : ℚ) + 1/2) :
    roundHalfEven q = f := by
  have hf : ⌊q⌋ = f := Int.floor_eq_iff.mpr ⟨h1, by linarith⟩
  have hr : q - (f : ℚ) < 1/2 := by linarith
  unfold roundHalfEven
  rw [hf, if_pos hr]

theorem roundHalfEven_eq_up (q : ℚ) (f : ℤ) (h1 : (f : ℚ) + 1/2 < q) (h2 : q < (f : ℚ) + 1) :
    roundHalfEven q = f + 1 := by
  have hf : ⌊q⌋ = f := Int.floor_eq_iff.mpr ⟨by linarith, h2⟩
  have hr1 : ¬ (q - (f : ℚ) < 1/2) := by push_neg; linarith
  have hr2 : 1/2 < q - (f : ℚ) := by linarith
  unfold roundHalfEven
  rw [hf, if_neg hr1, if_pos hr2]

theorem roundHalfEven_eq_tie (q : ℚ) (f : ℤ) (h : q = (f : ℚ) + 1/2) :
    roundHalfEven q = if f % 2 = 0 then f else f + 1 := by
  have hf : ⌊q⌋ = f := Int.floor_eq_iff.mpr ⟨by linarith, by linarith⟩
  have hr1 : ¬ (q - (f : ℚ) < 1/2) := by rw [h]; push_neg; linarith
  have hr2 : ¬ ((1:ℚ)/2 < q - (f : ℚ)) := by rw [h]; push_neg; linarith
  unfold roundHalfEven
  rw [hf, if_neg hr1, if_neg hr2]

theorem roundHalfEven_intCast (n : ℤ) : roundHalfEven (n : ℚ) = n :=
  roundHalfEven_eq_down _ n le_rfl (by norm_num)

theorem round5_eval (q : ℚ) (n : ℤ) (h : roundHalfEven (q * 100000) = n) :
    round5 q = (n : ℚ) / 100000 := by rw [round5, h]

theorem round4_eval (q : ℚ) (n : ℤ) (h : roundHalfEven (q * 10000) = n) :
    round4 q = (n : ℚ) / 10000 := by rw [round4, h]

/-- `round(q, 5)` of a value that already has at most five decimal places is
the value itself. -/
theorem round5_eq_self (q : ℚ) (n : ℤ) (h : q * 100000 = (n : ℚ)) : round5 q = q := by
  have hq : q = (n : ℚ) / 100000 := by
    field_simp at h ⊢
    linarith
  rw [round5, h, roundHalfEven_intCast, hq]

/-- `get_decimal_from_dms` computes the rounded, sign-adjusted sum: negating
each component before summing is negating the sum. -/
theorem get_decimal_from_dms_eq (dms : DMS) (ref : Char) :
    get_decimal_from_dms dms ref =
      round5 (if ref = 'S' ∨ ref = 'W' then -(dmsSum dms) else dmsSum dms) := by
  by_cases h : ref = 'S' ∨ ref = 'W'
  · simp only [get_decimal_from_dms, dmsSum, if_pos h]
    congr 1
    ring
  · simp only [get_decimal_from_dms, dmsSum, if_neg h]

theorem dmsSum_example_lat : dmsSum ⟨40, 26, 46⟩ = 145606/3600 := by norm_num [dmsSum]

theorem dmsSum_example_lon : dmsSum ⟨79, 58, 56⟩ = 287936/3600 := by norm_num [dmsSum]

theorem get_decimal_example_lat : get_decimal_from_dms ⟨40, 26, 46⟩ 'N' = (40.44611 : ℚ) := by
  rw [get_decimal_from_dms_eq, if_neg (by decide), dmsSum_example_lat,
    round5_eval _ 4044611 (by apply roundHalfEven_eq_down <;> norm_num)]
  norm_num

theorem get_decimal_example_lon : get_decimal_from_dms ⟨79, 58, 56⟩ 'W' = -(79.98222 : ℚ) := by
  rw [get_decimal_from_dms_eq, if_pos (by decide), dmsSum_example_lon]
  have h : roundHalfEven (-((287936:ℚ)/3600) * 100000) = -7998222 := by
    rw [show -((287936:ℚ)/3600) * 100000 = (-7998223 : ℚ) + 7/9 by norm_num]
    rw [roundHalfEven_eq_up ((-7998223 : ℚ) + 7/9) (-7998223) (by norm_num) (by norm_num)]
    norm_num
  rw [round5_eval _ _ h]
  norm_num

theorem format4_example_lat : format4 (dmsSum ⟨40, 26, 46⟩) = "40.4461" := by
  have h : roundHalfEven (|dmsSum (⟨40, 26, 46⟩ : DMS)| * 10000) = 404461 := by
    rw [abs_of_nonneg (by norm_num [dmsSum]), dmsSum_example_lat,
      show (145606:ℚ)/3600 * 10000 = 3640150/9 by norm_num]
    apply roundHalfEven_eq_down <;> norm_num
  have hq : ¬ (dmsSum (⟨40, 26, 46⟩ : DMS) < 0) := by norm_num [dmsSum]
  simp only [format4, h, if_neg hq, String.empty_append]
  decide

theorem format4_example_lon : format4 (dmsSum ⟨79, 58, 56⟩) = "79.9822" := by
  have h : roundHalfEven (|dmsSum (⟨79, 58, 56⟩ : DMS)| * 10000) = 799822 := by
    rw [abs_of_nonneg (by norm_num [dmsSum]), dmsSum_example_lon,
      show (287936:ℚ)/3600 * 10000 = 7198400/9 by norm_num]
    apply roundHalfEven_eq_down <;> norm_num
  have hq : ¬ (dmsSum (⟨79, 58, 56⟩ : DMS) < 0) := by norm_num [dmsSum]
  simp only [format4, h, if_neg hq, String.empty_append]
  decide

/-! ## Claims -/

/-- Claim C1: for every GPS IFD holding latitude and longitude DMS triples
with reference letters, extraction yields signed decimal coordinates equal
to `degrees + minutes/60 + seconds/3600`, negated when the reference letter
is `S`/`W`, rounded to 5 decimal places; reference `W` with triple
`(79,58,56)` yields `-79.98222`. -/
theorem claim_C1 :
    (∀ (dms : DMS) (ref : Char),
      get_decimal_from_dms dms ref =
        round5 (if ref = 'S' ∨ ref = 'W' then -(dmsSum dms) else dmsSum dms)) ∧
    (∀ (laRef loRef : Char) (la lo : DMS),
      get_coordinates ⟨some laRef, some la, some loRef, some lo⟩ =
        some (round5 (if laRef = 'S' ∨ laRef = 'W' then -(dmsSum la) else dmsSum la),
          round5 (if loRef = 'S' ∨ loRef = 'W' then -(dmsSum lo) else dmsSum lo))) ∧
    get_decimal_from_dms ⟨79, 58, 56⟩ 'W' = -(79.98222 : ℚ) := by
  refine ⟨get_decimal_from_dms_eq, ?_, get_decimal_example_lon⟩
  intro laRef loRef la lo
  simp only [get_coordinates, get_decimal_from_dms_eq]

/-- Claim C3 (corrected claim): `get_geotagging` fails exactly when tag
34853 is absent (or the mapping itself is absent), or when the nested GPS
mapping lacks a latitude triple or lacks a longitude triple — a mapping
containing only one of the two coordinate triples still fails. -/
theorem claim_C3 :
    ∀ (exif : Option ExifData),
      (∃ msg, get_geotagging exif = .error msg) ↔
        (exif = none ∨ ∃ e, exif = some e ∧
          (e.gps = none ∨ ∃ g, e.gps = some g ∧ (g.lat = none ∨ g.lon = none))) := by
  intro exif
  match exif with
  | none => simp [get_geotagging]
  | some e =>
    match he : e.gps with
    | none => simp [get_geotagging, he]
    | some g =>
      by_cases hg : g.lat = none ∨ g.lon = none
      · simp [get_geotagging, he, if_pos hg, hg]
      · simp [get_geotagging, he, if_neg hg, hg]

/-- Claim C3 counterexample: a GPS mapping that contains a latitude triple
but no longitude triple still triggers the missing-geotag failure, though
the claim says one coordinate triple suffices to avoid it. -/
theorem claim_C3_counterexample :
    (⟨some 'N', some ⟨40, 26, 46⟩, none, none⟩ : GpsDict).lat.isSome = true ∧
    get_geotagging (some ⟨some ⟨some 'N', some ⟨40, 26, 46⟩, none, none⟩, none⟩) =
      .error "No latitude or longitude information found in EXIF data" := by
  constructor
  · rfl
  · rfl

/-- Claim C6: orientation is looked up by scanning the tag-name table for
"Orientation" (tag 274) in the raw mapping, and an absent tag yields the
default `1`. -/
theorem claim_C6 :
    (∀ exif : List (ℕ × ℕ), get_orientation exif = (exif.lookup 274).getD 1) ∧
    get_orientation [] = 1 ∧ get_orientation [(306, 20230704)] = 1 := by
  refine ⟨?_, rfl, rfl⟩
  intro exif
  cases h : exif.lookup 274 <;>
    simp [get_orientation, TAGS, List.findSome?, h]

/-- Claim C7: for every successfully re-extracted image, the placemark's
point geometry lists the signed decimal coordinates in the order
(longitude, latitude); the worked example yields `(-79.98222, 40.44611)`. -/
theorem claim_C7 :
    (∀ (laRef loRef : Char) (la lo : DMS),
      kml_point_coordinates ⟨some laRef, some la, some loRef, some lo⟩ =
        some (get_decimal_from_dms lo loRef, get_decimal_from_dms la laRef)) ∧
    kml_point_coordinates exampleGps = some (-(79.98222 : ℚ), (40.44611 : ℚ)) := by
  constructor
  · intro laRef loRef la lo
    simp [kml_point_coordinates, get_coordinates]
  · simp [kml_point_coordinates, get_coordinates, exampleGps,
      get_decimal_example_lat, get_decimal_example_lon]

/-- Claim C8: re-running the pipeline over an already-placed file (sitting in
the `MMDD` folder directly under the root) recomputes the very same
destination folder directly under the root, never a nested `MMDD` folder:
`move_image` derives the destination only from the root directory and the
date. -/
theorem claim_C8 :
    ∀ (root : List String) (filename : String) (d : String),
      (processOne (root ++ [d.take 2 ++ (d.drop 3).take 2]) filename (some d) root).1 =
        root ++ [d.take 2 ++ (d.drop 3).take 2] ∧
      (processOne (root ++ [d.take 2 ++ (d.drop 3).take 2]) filename (some d) root).1 ≠
        (root ++ [d.take 2 ++ (d.drop 3).take 2]) ++ [d.take 2 ++ (d.drop 3).take 2] := by
  intro root filename d
  constructor
  · simp [processOne, rename_image, move_image]
  · simp only [processOne, rename_image, move_image]
    intro h
    have := congrArg List.length h
    simp at this

/-- Claim C9: whenever `watermark_with_exif` succeeds, the committed image
has been resized to exactly 1024×768, regardless of the source image's
original dimensions. -/
theorem claim_C9 :
    ∀ (img out : PILImage) (d : String),
      watermark_with_exif img = some (out, d) → out.width = 1024 ∧ out.height = 768 := by
  intro img out d h
  simp only [watermark_with_exif] at h
  repeat' split at h
  all_goals
    first
      | exact Option.noConfusion h
      | (simp only [Option.some.injEq, Prod.mk.injEq] at h
         rw [← h.1]
         exact ⟨rfl, rfl⟩)

/-- Claim C9 witness: the worked-example image, at original size 4000×3000,
is committed at 1024×768. -/
theorem claim_C9_witness :
    (⟨1024, 768, some exampleExif⟩ : PILImage).width = 1024 ∧
    (⟨1024, 768, some exampleExif⟩ : PILImage).height = 768 :=
  claim_C9 ⟨4000, 3000, some exampleExif⟩ ⟨1024, 768, some exampleExif⟩
    "07/04/2023 02:05 PM" rfl

/-- Claim C10: any filename whose lowercased form ends in `.jpeg` is accepted
(and relocated) by the directory walker but never matches the geo-index
builder's filter, so no placemark is produced for it. -/
theorem claim_C10 :
    ∀ (filename : List Char),
      (".jpeg".data).isSuffixOf (lowerChars filename) = true →
        process_images_accepts filename = true ∧ create_kml_accepts filename = false := by
  intro filename h
  have hs : (".jpeg".data) <:+ lowerChars filename := by
    rw [← List.isSuffixOf_iff_suffix]
    exact h
  constructor
  · simp [process_images_accepts, h]
  · have hjpg : ¬ ((".jpg".data) <:+ lowerChars filename) := by
      intro hc
      rcases List.suffix_or_suffix_of_suffix hc hs with h1 | h1
      · exact absurd h1 (by decide)
      · exact absurd h1 (by decide)
    have hpng : ¬ ((".png".data) <:+ lowerChars filename) := by
      intro hc
      rcases List.suffix_or_suffix_of_suffix hc hs with h1 | h1
      · exact absurd h1 (by decide)
      · exact absurd h1 (by decide)
    simp only [create_kml_accepts, Bool.or_eq_false_iff]
    constructor
    · rw [← Bool.not_eq_true, List.isSuffixOf_iff_suffix]
      exact hjpg
    · rw [← Bool.not_eq_true, List.isSuffixOf_iff_suffix]
      exact hpng

/-- Claim C10 witness: `photo.JPEG` is walked but indexed by no placemark. -/
theorem claim_C10_witness :
    process_images_accepts "photo.JPEG".data = true ∧
    create_kml_accepts "photo.JPEG".data = false :=
  claim_C10 "photo.JPEG".data (by decide)

/-- Claim C2 (corrected claim): the destination filename is `MMDD_` followed
by the basename of the file's containing folder, another `_`, and then the
original base name and extension; the destination folder is `root/MMDD`.
For the worked example placed in a folder named `Photos`, the result is
`0704_Photos_IMG1.jpg`, not `0704_IMG1.jpg`. -/
theorem claim_C2 :
    (∀ (root dir : List String) (filename d : String),
      processOne dir filename (some d) root =
        (root ++ [d.take 2 ++ (d.drop 3).take 2],
          d.take 2 ++ (d.drop 3).take 2 ++ "_" ++ basename dir ++ "_" ++
            (splitext filename).1 ++ (splitext filename).2)) ∧
    get_date_taken exampleExif = .ok "07/04/2023 02:05 PM" ∧
    processOne ["DCIM", "Photos"] "IMG1.jpg" (some "07/04/2023 02:05 PM") ["DCIM"] =
      (["DCIM", "0704"], "0704_Photos_IMG1.jpg") := by
  refine ⟨?_, rfl, rfl⟩
  intro root dir filename d
  simp [processOne, rename_image, move_image]

/-- Claim C2 counterexample: with capture date `07/04` and original name
`IMG1.jpg` inside a folder named `Photos`, the produced destination filename
is `0704_Photos_IMG1.jpg`, not the claimed `0704_IMG1.jpg`: `rename_image`
inserts the containing folder's basename between the `MMDD_` tag and the
original base name. -/
theorem claim_C2_counterexample :
    processOne ["DCIM", "Photos"] "IMG1.jpg" (some "07/04/2023 02:05 PM") ["DCIM"] =
      (["DCIM", "0704"], "0704_Photos_IMG1.jpg") ∧
    "0704_Photos_IMG1.jpg" ≠ "0704_IMG1.jpg" := by
  exact ⟨rfl, by decide⟩

/-- Claim C4: the location label is
`"<H> <lat 4dp>°, <H> <lon 4dp>°"`, the magnitudes being the unsigned DMS
sums formatted to 4 decimal places and each hemisphere letter derived only
from the reference tag (`'N'` gives `N`, anything else `S`; `'E'` gives `E`,
anything else `W`), never from a coordinate sign; the worked example renders
`"N 40.4461°, W 79.9822°"`. -/
theorem claim_C4 :
    (∀ (laRef loRef : Char) (la lo : DMS),
      watermark_text_lat_lon ⟨some laRef, some la, some loRef, some lo⟩ =
        some (String.singleton (if laRef = 'N' then 'N' else 'S') ++ " " ++
          format4 (dmsSum la) ++ "°, " ++
          String.singleton (if loRef = 'E' then 'E' else 'W') ++ " " ++
          format4 (dmsSum lo) ++ "°")) ∧
    watermark_text_lat_lon exampleGps = some "N 40.4461°, W 79.9822°" := by
  have main : ∀ (laRef loRef : Char) (la lo : DMS),
      watermark_text_lat_lon ⟨some laRef, some la, some loRef, some lo⟩ =
        some (String.singleton (if laRef = 'N' then 'N' else 'S') ++ " " ++
          format4 (dmsSum la) ++ "°, " ++
          String.singleton (if loRef = 'E' then 'E' else 'W') ++ " " ++
          format4 (dmsSum lo) ++ "°") := by
    intro laRef loRef la lo
    simp only [watermark_text_lat_lon, dmsSum]
  refine ⟨main, ?_⟩
  rw [show exampleGps = ⟨some 'N', some ⟨40, 26, 46⟩, some 'W', some ⟨79, 58, 56⟩⟩ from rfl,
    main, format4_example_lat, format4_example_lon]
  rfl

/-- Claim C5 (corrected claim): the displayed magnitude is the unsigned DMS
sum rounded to 4 decimals, and it equals the absolute value of the signed
5-decimal index coordinate re-rounded to 4 decimals whenever the unsigned
sum already has at most 5 decimal places (so that the inner rounding is the
identity); for general DMS inputs the double rounding can disagree. -/
theorem claim_C5 :
    ∀ (dms : DMS) (ref : Char) (n : ℤ), 0 ≤ dmsSum dms → dmsSum dms * 100000 = (n : ℚ) →
      round4 (dmsSum dms) = round4 |get_decimal_from_dms dms ref| := by
  intro dms ref n h0 hn
  rw [get_decimal_from_dms_eq]
  by_cases h : ref = 'S' ∨ ref = 'W'
  · rw [if_pos h, round5_eq_self (-(dmsSum dms)) (-n) (by push_cast; linarith),
      abs_neg, abs_of_nonneg h0]
  · rw [if_neg h, round5_eq_self _ n hn, abs_of_nonneg h0]

/-- Claim C5 witness: for the triple `(40, 30, 0)` (sum `40.5`) with
reference `S`, the display magnitude equals the re-rounded index
magnitude. -/
theorem claim_C5_witness :
    (0 ≤ dmsSum ⟨40, 30, 0⟩) ∧ dmsSum ⟨40, 30, 0⟩ * 100000 = ((4050000 : ℤ) : ℚ) ∧
    round4 (dmsSum ⟨40, 30, 0⟩) = round4 |get_decimal_from_dms ⟨40, 30, 0⟩ 'S'| :=
  ⟨by norm_num [dmsSum], by norm_num [dmsSum],
    claim_C5 ⟨40, 30, 0⟩ 'S' 4050000 (by norm_num [dmsSum]) (by norm_num [dmsSum])⟩

/-- Claim C5 counterexample: for the DMS triple `(0, 0, 0.5364)` the exact
sum is `0.000149`; the display magnitude rounds it to `0.0001`, while the
5-decimal index value `0.00015` re-rounds (half-to-even) to `0.0002` — so
formatting the unsigned sum to 4 decimals does not agree with re-rounding
the 5-decimal-rounded signed value for every DMS input. -/
theorem claim_C5_counterexample :
    round4 (dmsSum ⟨0, 0, 1341/2500⟩) = 1/10000 ∧
    round4 |get_decimal_from_dms ⟨0, 0, 1341/2500⟩ 'N'| = 2/10000 ∧
    round4 (dmsSum ⟨0, 0, 1341/2500⟩) ≠
      round4 |get_decimal_from_dms ⟨0, 0, 1341/2500⟩ 'N'| := by
  have hsum : dmsSum ⟨0, 0, 1341/2500⟩ = 149/1000000 := by norm_num [dmsSum]
  have h1 : round4 (dmsSum ⟨0, 0, 1341/2500⟩) = 1/10000 := by
    rw [hsum, round4_eval _ 1 ?_]
    · norm_num
    · rw [show (149:ℚ)/1000000 * 10000 = 149/100 by norm_num]
      apply roundHalfEven_eq_down <;> norm_num
  have hdec : get_decimal_from_dms ⟨0, 0, 1341/2500⟩ 'N' = 3/20000 := by
    rw [get_decimal_from_dms_eq, if_neg (by decide), hsum, round5_eval _ 15 ?_]
    · norm_num
    · rw [show (149:ℚ)/1000000 * 100000 = 149/10 by norm_num]
      rw [show ((15:ℤ) : ℤ) = 14 + 1 from rfl]
      apply roundHalfEven_eq_up <;> norm_num
  have h2 : round4 |get_decimal_from_dms ⟨0, 0, 1341/2500⟩ 'N'| = 2/10000 := by
    rw [hdec, abs_of_nonneg (by norm_num), round4_eval _ 2 ?_]
    · norm_num
    · rw [show (3:ℚ)/20000 * 10000 = (1 : ℚ) + 1/2 by norm_num,
        roundHalfEven_eq_tie ((1:ℚ) + 1/2) 1 (by norm_num)]
      decide
  exact ⟨h1, h2, by rw [h1, h2]; norm_num⟩

end ImageAlteration
